import Mathlib

/-!
Verification of the core inspection pipeline of the vision inspection system
(backend Python sources under `src/backend/src`).

The development shallowly embeds the pieces of the pipeline that the checked
properties are about:

* `extract_roi` — `BaseToolProcessor.extract_roi` (base_tool.py),
* the judgment rules — `BaseToolProcessor.judge` plus the identical overrides
  of the area / color-area / edge tools, and
  `PositionAdjustmentToolProcessor.judge` (position_adjustment.py),
* the ratio-style matching rates — `AreaToolProcessor.calculate_matching_rate`,
  `ColorAreaToolProcessor.calculate_matching_rate`,
  `EdgePixelsToolProcessor.calculate_matching_rate`,
* the color-area target-color selection —
  `ColorAreaToolProcessor.extract_master_features` /
  `auto_detect_color_range` (color_area_tool.py),
* the engine — `InspectionEngine.load_program`, `run_inspection_cycle`,
  `process_tools`, `aggregate_results` (inspection_engine.py).

Python floats that only ever carry ratios of small integers are modelled by
`ℚ`; Python ints by `ℤ` or `ℕ`; numpy images by a dimension pair together
with a total pixel function; raised exceptions by `Except String`.
OpenCV primitives that the checked properties do not inspect pointwise
(grayscale conversion, Gaussian blur, Canny, RGB→HSV) are taken as function
parameters, so every theorem quantifies over them.
-/

/-- Pass/fail status of a tool or of a whole cycle ('OK' / 'NG' strings in
the Python source). -/
inductive Status where
  | OK : Status
  | NG : Status
deriving DecidableEq, Repr

/-- A region of interest as configured: the Python dict
`\x7b'x': x, 'y': y, 'width': w, 'height': h\x7d` with (arbitrary-precision,
possibly negative) Python ints. -/
structure ROI where
  x : Int
  y : Int
  width : Int
  height : Int
deriving DecidableEq, Repr

/-- A numpy image: a height, a width and a total pixel function
(row index, column index). Only indices below the bounds are meaningful. -/
structure Image (α : Type) where
  h : Nat
  w : Nat
  pix : Nat → Nat → α

/-- An RGB pixel. -/
abbrev Color := Nat × Nat × Nat

/-- Pointwise pixel transform (models pointwise OpenCV conversions such as
`cv2.cvtColor`, which keep the image dimensions). -/
def Image.map (f : α → β) (img : Image α) : Image β :=
  ⟨img.h, img.w, fun i j => f (img.pix i j)⟩

/-- Number of pixels of `img` satisfying `p` (models counting with
`np.sum(mask == 255)` after building a mask). -/
def countPix (p : α → Bool) (img : Image α) : Nat :=
  (Finset.range img.h).sum fun i =>
    (Finset.range img.w).sum fun j => if p (img.pix i j) then 1 else 0

/-- Clamped x-offset of a ROI: `x = max(0, min(x, w_img - 1))` from
`BaseToolProcessor.extract_roi` (base_tool.py line 69). -/
def roiClampX (r : ROI) (wImg : Nat) : Int :=
  max 0 (min r.x ((wImg : Int) - 1))

/-- Clamped y-offset of a ROI: `y = max(0, min(y, h_img - 1))` from
`BaseToolProcessor.extract_roi` (base_tool.py line 70). -/
def roiClampY (r : ROI) (hImg : Nat) : Int :=
  max 0 (min r.y ((hImg : Int) - 1))

/-- Trimmed ROI width: `w = min(w, w_img - x)` from
`BaseToolProcessor.extract_roi` (base_tool.py line 71). -/
def roiClampW (r : ROI) (wImg : Nat) : Int :=
  min r.width ((wImg : Int) - roiClampX r wImg)

/-- Trimmed ROI height: `h = min(h, h_img - y)` from
`BaseToolProcessor.extract_roi` (base_tool.py line 72). -/
def roiClampH (r : ROI) (hImg : Nat) : Int :=
  min r.height ((hImg : Int) - roiClampY r hImg)

/-- Embedding of `BaseToolProcessor.extract_roi` (base_tool.py lines 49-74):
with no ROI configured (`self.roi is None`) the full image is returned;
otherwise the x/y offsets are clamped into the image, width/height are
trimmed to fit, and the numpy slice `image[y:y+h, x:x+w]` is taken (empty
when the trimmed width or height is not positive, as a Python slice is). -/
def extract_roi (roi : Option ROI) (img : Image α) : Image α :=
  match roi with
  | none => img
  | some r =>
    let x := roiClampX r img.w
    let y := roiClampY r img.h
    let w := roiClampW r img.w
    let h := roiClampH r img.h
    ⟨(max 0 h).toNat, (max 0 w).toNat, fun i j => img.pix (y.toNat + i) (x.toNat + j)⟩

/-- Embedding of `BaseToolProcessor.judge` (base_tool.py lines 102-124):
range judgment when `upper_limit` is set, floor judgment otherwise. -/
def BaseToolProcessor.judge (threshold : ℚ) (upper_limit : Option ℚ)
    (matching_rate : ℚ) : Status × ℚ :=
  match upper_limit with
  | some ul =>
    if threshold ≤ matching_rate ∧ matching_rate ≤ ul then (Status.OK, matching_rate)
    else (Status.NG, matching_rate)
  | none =>
    if threshold ≤ matching_rate then (Status.OK, matching_rate)
    else (Status.NG, matching_rate)

/-- Embedding of `AreaToolProcessor.judge` (area_tool.py lines 126-147); the
override repeats the base rule verbatim. -/
def AreaToolProcessor.judge (threshold : ℚ) (upper_limit : Option ℚ)
    (matching_rate : ℚ) : Status × ℚ :=
  match upper_limit with
  | some ul =>
    if threshold ≤ matching_rate ∧ matching_rate ≤ ul then (Status.OK, matching_rate)
    else (Status.NG, matching_rate)
  | none =>
    if threshold ≤ matching_rate then (Status.OK, matching_rate)
    else (Status.NG, matching_rate)

/-- Embedding of `ColorAreaToolProcessor.judge` (color_area_tool.py lines
177-198); the override repeats the base rule verbatim. -/
def ColorAreaToolProcessor.judge (threshold : ℚ) (upper_limit : Option ℚ)
    (matching_rate : ℚ) : Status × ℚ :=
  match upper_limit with
  | some ul =>
    if threshold ≤ matching_rate ∧ matching_rate ≤ ul then (Status.OK, matching_rate)
    else (Status.NG, matching_rate)
  | none =>
    if threshold ≤ matching_rate then (Status.OK, matching_rate)
    else (Status.NG, matching_rate)

/-- Embedding of `EdgePixelsToolProcessor.judge` (edge_detection_tool.py
lines 125-146); the override repeats the base rule verbatim. -/
def EdgePixelsToolProcessor.judge (threshold : ℚ) (upper_limit : Option ℚ)
    (matching_rate : ℚ) : Status × ℚ :=
  match upper_limit with
  | some ul =>
    if threshold ≤ matching_rate ∧ matching_rate ≤ ul then (Status.OK, matching_rate)
    else (Status.NG, matching_rate)
  | none =>
    if threshold ≤ matching_rate then (Status.OK, matching_rate)
    else (Status.NG, matching_rate)

/-- Embedding of `PositionAdjustmentToolProcessor.judge`
(position_adjustment.py lines 160-173): the method reads only
`self.threshold`, never `self.upper_limit`, so the embedding takes no
upper-limit argument — the rule is floor judgment regardless of any stored
upper limit. -/
def PositionAdjustmentToolProcessor.judge (threshold : ℚ)
    (matching_rate : ℚ) : Status × ℚ :=
  if threshold ≤ matching_rate then (Status.OK, matching_rate)
  else (Status.NG, matching_rate)

/-- Embedding of `cv2.threshold(gray, thresholdValue, 255, cv2.THRESH_BINARY)`:
each destination pixel is 255 where the source pixel exceeds the threshold
value, else 0. -/
def cv2ThresholdBinary (thresholdValue : Nat) (gray : Image Nat) : Image Nat :=
  gray.map fun v => if thresholdValue < v then 255 else 0

/-- Embedding of `cv2.inRange(hsv, lower, upper)`: 255 where every channel
lies inside the closed window, else 0. -/
def cv2InRange (lower upper : Color) (hsv : Image Color) : Image Nat :=
  hsv.map fun p =>
    if lower.1 ≤ p.1 ∧ p.1 ≤ upper.1 ∧ lower.2.1 ≤ p.2.1 ∧ p.2.1 ≤ upper.2.1 ∧
        lower.2.2 ≤ p.2.2 ∧ p.2.2 ≤ upper.2.2 then 255 else 0

/-- State of `AreaToolProcessor` read by its `calculate_matching_rate`: the
configured ROI, the resolved binary threshold value stored from the master
(`self.threshold_value`) and the master's white-pixel count
(`self.master_area_pixels`). -/
structure AreaToolProcessorState where
  roi : Option ROI
  threshold_value : Nat
  master_area_pixels : Nat

/-- Embedding of `AreaToolProcessor.calculate_matching_rate` (area_tool.py
lines 90-124). `grayFn` stands for the pointwise `cv2.cvtColor(·, RGB2GRAY)`
primitive. -/
def AreaToolProcessor.calculate_matching_rate (grayFn : Color → Nat)
    (s : AreaToolProcessorState) (test_image : Image Color) : ℚ :=
  if s.master_area_pixels = 0 then 0
  else
    let roi_image := extract_roi s.roi test_image
    let gray := roi_image.map grayFn
    let binary := cv2ThresholdBinary s.threshold_value gray
    let test_area_pixels := countPix (fun v => v == 255) binary
    min 200 ((test_area_pixels : ℚ) / (s.master_area_pixels : ℚ) * 100)

/-- State of `EdgePixelsToolProcessor` read by its `calculate_matching_rate`:
the configured ROI, the Canny thresholds stored from configuration and the
master's edge-pixel count. -/
structure EdgePixelsToolProcessorState where
  roi : Option ROI
  low_threshold : Int
  high_threshold : Int
  master_edge_pixels : Nat

/-- Embedding of `EdgePixelsToolProcessor.calculate_matching_rate`
(edge_detection_tool.py lines 86-123). `grayFn`, `blur` and `canny` stand
for the `cv2.cvtColor(·, RGB2GRAY)`, `cv2.GaussianBlur(·, (5,5), 0)` and
`cv2.Canny` primitives; the stored `low_threshold` / `high_threshold` are
passed to `canny` exactly as the source does. -/
def EdgePixelsToolProcessor.calculate_matching_rate (grayFn : Color → Nat)
    (blur : Image Nat → Image Nat) (canny : Int → Int → Image Nat → Image Nat)
    (s : EdgePixelsToolProcessorState) (test_image : Image Color) : ℚ :=
  if s.master_edge_pixels = 0 then 0
  else
    let roi_image := extract_roi s.roi test_image
    let gray := roi_image.map grayFn
    let blurred := blur gray
    let edges := canny s.low_threshold s.high_threshold blurred
    let test_edge_pixels := countPix (fun v => v == 255) edges
    min 200 ((test_edge_pixels : ℚ) / (s.master_edge_pixels : ℚ) * 100)

/-- State of `ColorAreaToolProcessor` read by its `calculate_matching_rate`:
the configured ROI, the HSV window stored from the master
(`self.color_lower` / `self.color_upper`) and the master's in-window pixel
count. -/
structure ColorAreaToolProcessorState where
  roi : Option ROI
  color_lower : Color
  color_upper : Color
  master_color_pixels : Nat

/-- Embedding of `ColorAreaToolProcessor.calculate_matching_rate`
(color_area_tool.py lines 144-175). `hsvFn` stands for the pointwise
`cv2.cvtColor(·, RGB2HSV)` primitive. -/
def ColorAreaToolProcessor.calculate_matching_rate (hsvFn : Color → Color)
    (s : ColorAreaToolProcessorState) (test_image : Image Color) : ℚ :=
  if s.master_color_pixels = 0 then 0
  else
    let roi_image := extract_roi s.roi test_image
    let hsv := roi_image.map hsvFn
    let mask := cv2InRange s.color_lower s.color_upper hsv
    let test_color_pixels := countPix (fun v => v == 255) mask
    min 200 ((test_color_pixels : ℚ) / (s.master_color_pixels : ℚ) * 100)

/-- Insert a value into an already sorted list (ascending). -/
def insertSorted (x : Nat) : List Nat → List Nat
  | [] => [x]
  | y :: ys => if x ≤ y then x :: y :: ys else y :: insertSorted x ys

/-- Ascending insertion sort, modelling the sort inside `np.median`. -/
def sortNat (l : List Nat) : List Nat := l.foldr insertSorted []

/-- Embedding of `np.median` over channel values followed by the
`astype(np.uint8)` cast the source applies: middle element for odd length,
truncated average of the two middle elements for even length (the float
average `k + 0.5` is exact, so the uint8 cast is floor, i.e. Nat division
by 2). -/
def npMedianU8 (l : List Nat) : Nat :=
  let s := sortNat l
  let n := s.length
  if n % 2 = 1 then s.getD (n / 2) 0
  else (s.getD (n / 2 - 1) 0 + s.getD (n / 2) 0) / 2

/-- Embedding of `np.mean` over channel values followed by the
`astype(np.uint8)` cast the source applies: the exact rational mean
`sum/len` is never within float error of an integer from below, so the cast
truncates to the floor, i.e. Nat division. -/
def npMeanU8 (l : List Nat) : Nat := l.sum / l.length

/-- Per-channel `np.mean(sampled_colors, axis=0).astype(np.uint8)` over a
list of HSV pixels (color_area_tool.py line 84). -/
def npMeanColorU8 (cs : List Color) : Color :=
  (npMeanU8 (cs.map (·.1)), npMeanU8 (cs.map (·.2.1)), npMeanU8 (cs.map (·.2.2)))

/-- All pixels of an image in row-major order (`np.median` sorts, so the
enumeration order is irrelevant to the computed median). -/
def imagePixels (img : Image α) : List α :=
  (List.range img.h).flatMap fun i => (List.range img.w).map fun j => img.pix i j

/-- Embedding of `ColorAreaToolProcessor.auto_detect_color_range`
(color_area_tool.py lines 127-142): the per-channel median HSV of the whole
(ROI) image. -/
def ColorAreaToolProcessor.auto_detect_color_range (hsv_image : Image Color) : Color :=
  (npMedianU8 ((imagePixels hsv_image).map (·.1)),
   npMedianU8 ((imagePixels hsv_image).map (·.2.1)),
   npMedianU8 ((imagePixels hsv_image).map (·.2.2)))

/-- Embedding of the sampling loop of
`ColorAreaToolProcessor.extract_master_features` (color_area_tool.py lines
74-80): each sample coordinate is shifted into ROI-local space using the
configured ROI origin and kept only when it falls inside the extracted ROI
image. -/
def sampledColors (roi : ROI) (hsv : Image Color)
    (color_samples : List (Int × Int)) : List Color :=
  color_samples.filterMap fun xy =>
    let rel_x := xy.1 - roi.x
    let rel_y := xy.2 - roi.y
    if 0 ≤ rel_x ∧ rel_x < (hsv.w : Int) ∧ 0 ≤ rel_y ∧ rel_y < (hsv.h : Int) then
      some (hsv.pix rel_y.toNat rel_x.toNat)
    else none

/-- Embedding of the target-color selection of
`ColorAreaToolProcessor.extract_master_features` (color_area_tool.py lines
65-90): with non-empty samples of which at least one is valid, the target is
the per-channel mean of the sampled pixels; otherwise the auto-detected
per-channel median of the whole ROI. `hsvFn` stands for the pointwise
`cv2.cvtColor(·, RGB2HSV)` primitive. -/
def ColorAreaToolProcessor.select_target_hsv (hsvFn : Color → Color) (roi : ROI)
    (master_image : Image Color) (color_samples : List (Int × Int)) : Color :=
  let roi_image := extract_roi (some roi) master_image
  let hsv := roi_image.map hsvFn
  if color_samples ≠ [] then
    let sampled := sampledColors roi hsv color_samples
    if sampled ≠ [] then npMeanColorU8 sampled
    else ColorAreaToolProcessor.auto_detect_color_range hsv
  else ColorAreaToolProcessor.auto_detect_color_range hsv

/-- The spec's words for the sampled-pixels case of claim C9, for comparison
with the source's selection: the per-channel median HSV of the sampled
pixels. -/
def specMedianOfSamples (cs : List Color) : Color :=
  (npMedianU8 (cs.map (·.1)), npMedianU8 (cs.map (·.2.1)), npMedianU8 (cs.map (·.2.2)))

/-- A tool result dict as built by the tool processors
(`BaseToolProcessor.process`, `PositionAdjustmentToolProcessor.process`) and
by the engine's per-tool failure handler; absent dict keys are `none`. -/
structure ToolResult where
  tool_type : String
  name : String
  status : Status
  matching_rate : ℚ
  threshold : Option ℚ := none
  upper_limit : Option ℚ := none
  offset : Option (Int × Int) := none
  error : Option String := none
deriving DecidableEq, Repr

/-- A loaded tool instance as `InspectionEngine` uses it during a cycle: its
current (mutable) `self.roi` plus its `process` behavior. `process` depends
on the instance exactly through `self.roi` — which the position step mutates
— and through the immutable master features, captured in the closure, so it
is modelled as a function of the current ROI and the captured image that
either returns a result dict or raises. -/
structure EngineTool where
  tool_type : String
  name : String
  roi : ROI
  processFn : ROI → Image Color → Except String ToolResult

/-- The `InspectionEngine` state that `load_program` and
`run_inspection_cycle` read and write. `quality_checked` models
`hasattr(self, '_quality_checked')`; `master_image_attr` models
`hasattr(self, 'master_image')` — neither `__init__` nor `load_program`
ever assigns `self.master_image` (the loaded master image is only a local
variable of `load_program`), so a constructed engine has it `false`. -/
structure Engine where
  tools : List EngineTool
  position_tool : Option EngineTool
  quality_checked : Bool
  master_image_attr : Bool
  busy_output : Bool

/-- The degraded NG result dict the engine builds when a tool's `process`
raises (inspection_engine.py lines 264-273). -/
def failedResult (t : EngineTool) (err : String) : ToolResult :=
  { tool_type := t.tool_type, name := t.name, status := Status.NG,
    matching_rate := 0, error := some err }

/-- Embedding of `InspectionEngine.process_tools` (inspection_engine.py
lines 245-275): run every tool in order; an exception from one tool becomes
a degraded NG result and processing continues with the next tool. -/
def InspectionEngine.process_tools (tools : List EngineTool)
    (image : Image Color) : List ToolResult :=
  tools.map fun t =>
    match t.processFn t.roi image with
    | Except.ok r => r
    | Except.error err => failedResult t err

/-- Embedding of `InspectionEngine.aggregate_results` (inspection_engine.py
lines 277-292): return NG at the first NG entry, else OK (also for the
empty list). -/
def InspectionEngine.aggregate_results : List ToolResult → Status
  | [] => Status.OK
  | r :: rest =>
    if r.status = Status.NG then Status.NG
    else InspectionEngine.aggregate_results rest

/-- Message of the `AttributeError` raised by the first-cycle quality check
(inspection_engine.py line 176): `self.master_image` is read but never
assigned anywhere on `InspectionEngine`. -/
def attrErrMsg : String :=
  "AttributeError: InspectionEngine object has no attribute master_image"

/-- Message of the `KeyError` that `position_result['offset']` would raise
if a position result lacked the key (inspection_engine.py line 203). -/
def offsetKeyErr : String := "KeyError: offset"

/-- Embedding of step 3 of `InspectionEngine.run_inspection_cycle`
(inspection_engine.py lines 194-222): if a position tool is configured, run
it; an exception from it propagates out of the cycle. On an OK judgment
with a non-zero offset, add `(dx, dy)` to every detection tool's stored
`self.roi` (the saved `original_roi` copy on line 209 is never restored);
on NG only a warning is logged. Returns the possibly-mutated engine and the
position result to prepend. -/
def positionStep (e : Engine) (image : Image Color) :
    Except String (Engine × Option ToolResult) :=
  match e.position_tool with
  | none => Except.ok (e, none)
  | some pt =>
    match pt.processFn pt.roi image with
    | Except.error err => Except.error err
    | Except.ok position_result =>
      if position_result.status = Status.OK then
        match position_result.offset with
        | none => Except.error offsetKeyErr
        | some (dx, dy) =>
          if dx ≠ 0 ∨ dy ≠ 0 then
            Except.ok
              ({ e with tools := e.tools.map fun t =>
                  { t with roi := { t.roi with x := t.roi.x + dx, y := t.roi.y + dy } } },
                some position_result)
          else Except.ok (e, some position_result)
      else Except.ok (e, some position_result)

/-- Outcome of one inspection cycle (overall status and tool results; the
processing time and the echoed captured image are dropped). -/
structure InspectionOutcome where
  overall_status : Status
  tool_results : List ToolResult
deriving DecidableEq, Repr

/-- Embedding of `InspectionEngine.run_inspection_cycle` (inspection_engine.py
lines 144-243). `capture` is the camera's return value (`none` when no
buffer was returned). Raising inside the cycle is modelled by the
`Except.error` component; the engine state is returned alongside because
the cycle mutates it (BUSY output, `_quality_checked`, and the tools' ROIs
through the position step), and the `finally` block lowers BUSY on every
path. On the first cycle the quality-check block sets `_quality_checked`
and then reads the never-assigned `self.master_image`, raising
`AttributeError`; when the attribute does exist the consistency check's
outcome is only logged, so it does not influence the rest of the cycle. -/
def InspectionEngine.run_inspection_cycle (e0 : Engine)
    (capture : Option (Image Color)) : Except String InspectionOutcome × Engine :=
  let e1 : Engine := { e0 with busy_output := true }
  match capture with
  | none => (Except.error "Failed to capture image", { e1 with busy_output := false })
  | some image =>
    let e2 : Engine :=
      if e1.quality_checked then e1 else { e1 with quality_checked := true }
    if !e1.quality_checked && !e1.master_image_attr then
      (Except.error attrErrMsg, { e2 with busy_output := false })
    else
      match positionStep e2 image with
      | Except.error err => (Except.error err, { e2 with busy_output := false })
      | Except.ok (e3, position_result) =>
        let tool_results := InspectionEngine.process_tools e3.tools image
        let tool_results :=
          match position_result with
          | some pr => pr :: tool_results
          | none => tool_results
        let overall_status := InspectionEngine.aggregate_results tool_results
        (Except.ok ⟨overall_status, tool_results⟩, { e3 with busy_output := false })

/-- A tool entry of the program configuration as `load_program` reads it:
`tool_config['type']`, `['roi']`, `['threshold']`, `.get('upperLimit')`. -/
structure ToolConfigEntry where
  tool_type : String
  roi : ROI
  threshold : ℚ
  upper_limit : Option ℚ

/-- The keys of `InspectionEngine.TOOL_CLASSES` (inspection_engine.py lines
34-40). -/
def TOOL_CLASSES : List String :=
  ["outline", "area", "color_area", "edge_detection", "position_adjust"]

/-- Models the call `tool.configure(roi=roi, threshold=threshold,
upper_limit=upper_limit)` made by `load_program` (inspection_engine.py line
124). The outline/area/color-area/edge processors accept the `upper_limit`
keyword (base_tool.py line 33, area_tool.py line 35, color_area_tool.py
line 35, edge_detection_tool.py line 33) and their `configure` bodies only
store fields, so the call succeeds. `PositionAdjustmentToolProcessor.configure`
(position_adjustment.py lines 34-45) is declared as
`configure(self, roi, threshold=70, search_margin=50)` with no `upper_limit`
parameter and no `**kwargs`, so Python raises `TypeError` on this call. -/
def engineConfigureCall (tool_type : String) : Except String Unit :=
  if tool_type = "position_adjust" then
    Except.error "TypeError: configure() got an unexpected keyword argument upper_limit"
  else Except.ok ()

/-- The tool lists `load_program` builds (`self.tools` and
`self.position_tool`). -/
structure LoadState where
  tools : List EngineTool
  position_tool : Option EngineTool

/-- One iteration of the `for tool_config in tools_config` loop of
`InspectionEngine.load_program` (inspection_engine.py lines 106-139):
unknown tool types are skipped with a warning; the configure call and the
variant-specific `extract_master_features` (abstracted as `extract`, which
closes over the loaded master image) run inside a `try` whose `except`
only logs, so a raising tool is skipped and the loop continues; a
successfully built position tool is installed only if none is installed
yet; every other successful tool is appended to `self.tools`. -/
def loadStep (extract : ToolConfigEntry → Except String EngineTool)
    (st : LoadState) (cfg : ToolConfigEntry) : LoadState :=
  if TOOL_CLASSES.contains cfg.tool_type then
    match engineConfigureCall cfg.tool_type with
    | Except.error _ => st
    | Except.ok _ =>
      match extract cfg with
      | Except.error _ => st
      | Except.ok tool =>
        if cfg.tool_type = "position_adjust" then
          match st.position_tool with
          | some _ => st
          | none => { st with position_tool := some tool }
        else { st with tools := st.tools ++ [tool] }
  else st

/-- Embedding of the tool-initialization loop of
`InspectionEngine.load_program` (inspection_engine.py lines 102-139),
starting from the cleared `self.tools = []`, `self.position_tool = None`. -/
def InspectionEngine.load_program
    (extract : ToolConfigEntry → Except String EngineTool)
    (tools_config : List ToolConfigEntry) : LoadState :=
  tools_config.foldl (loadStep extract) ⟨[], none⟩

/-- The engine state right after `__init__` ran `load_program`: neither
`_quality_checked` nor `master_image` is ever assigned, BUSY is low. -/
def InspectionEngine.initEngine (ls : LoadState) : Engine :=
  { tools := ls.tools, position_tool := ls.position_tool,
    quality_checked := false, master_image_attr := false, busy_output := false }

/-- The tool-result list of a cycle's return value, `none` when the cycle
raised; used to compare the outcomes of two cycles. -/
def cycleResults (x : Except String InspectionOutcome) : Option (List ToolResult) :=
  match x with
  | Except.ok o => some o.tool_results
  | Except.error _ => none

/-- A concrete 3×4 image used by witnesses. -/
def imgW : Image Nat := ⟨3, 4, fun _ _ => 0⟩

/-- A concrete ROI reaching outside `imgW` on every side. -/
def roiW : ROI := ⟨-5, 2, 100, 100⟩

/-- A concrete 1×1 RGB capture used by the engine witnesses. -/
def imgRGB : Image Color := ⟨1, 1, fun _ _ => (0, 0, 0)⟩

/-- A concrete 1×3 master image for claim C9: one black pixel then two with
hue 10. -/
def imgC9 : Image Color := ⟨1, 3, fun _ j => if j = 0 then (0, 0, 0) else (10, 0, 0)⟩

/-- The ROI covering all of `imgC9`. -/
def roiC9 : ROI := ⟨0, 0, 3, 1⟩

/-- Sample coordinates hitting all three pixels of `imgC9`. -/
def samplesC9 : List (Int × Int) := [(0, 0), (1, 0), (2, 0)]

/-- A freshly constructed engine with no tools, for the C4 witness. -/
def engC4 : Engine :=
  { tools := [], position_tool := none, quality_checked := false,
    master_image_attr := false, busy_output := false }

/-- A concrete OK tool result for the C2 witness. -/
def okRes : ToolResult :=
  { tool_type := "area", name := "Area Tool", status := Status.OK, matching_rate := 100 }

/-- A concrete tool whose `process` always raises, for the C8 witness. -/
def toolFail : EngineTool :=
  { tool_type := "area", name := "Area Tool", roi := ⟨0, 0, 10, 10⟩,
    processFn := fun _ _ => Except.error "boom" }

/-- Program entry for an outline tool whose master ROI has no contours. -/
def cfgOutline : ToolConfigEntry :=
  { tool_type := "outline", roi := ⟨0, 0, 10, 10⟩, threshold := 65, upper_limit := none }

/-- Program entry for an area tool that extracts fine. -/
def cfgArea : ToolConfigEntry :=
  { tool_type := "area", roi := ⟨0, 0, 5, 5⟩, threshold := 50, upper_limit := none }

/-- The result the C3 area tool returns on every capture. -/
def areaResOK : ToolResult :=
  { tool_type := "area", name := "Area Tool", status := Status.OK,
    matching_rate := 100, threshold := some 50 }

/-- The loaded C3 area tool (its master features are captured in the
closure). -/
def toolAreaC3 : EngineTool :=
  { tool_type := "area", name := "Area Tool", roi := ⟨0, 0, 5, 5⟩,
    processFn := fun _ _ => Except.ok areaResOK }

/-- A concrete `extract_master_features` outcome for claim C3: the outline
tool raises `ValueError` on a contour-free master ROI (outline_tool.py line
72) while the area tool succeeds. -/
def extractC3 : ToolConfigEntry → Except String EngineTool := fun cfg =>
  if cfg.tool_type = "outline" then
    Except.error "ValueError: No contours found in master image ROI"
  else Except.ok toolAreaC3

/-- The position result of the C1 run: judged OK with offset (5, -3). -/
def posResultC1 : ToolResult :=
  { tool_type := "position_adjust", name := "Position Adjustment Tool",
    status := Status.OK, matching_rate := 95, threshold := some 70,
    offset := some (5, -3) }

/-- The C1 position tool: always locates the part 5 right and 3 up of the
expected position. -/
def posToolC1 : EngineTool :=
  { tool_type := "position_adjust", name := "Position Adjustment Tool",
    roi := ⟨0, 0, 8, 8⟩, processFn := fun _ _ => Except.ok posResultC1 }

/-- The C1 detection tool: reports OK with its current ROI x-offset as the
matching rate, making any ROI drift visible in its result. -/
def areaToolC1 : EngineTool :=
  { tool_type := "area", name := "Area Tool", roi := ⟨10, 20, 30, 40⟩,
    processFn := fun roi _ => Except.ok
      { tool_type := "area", name := "Area Tool", status := Status.OK,
        matching_rate := (roi.x : ℚ) } }

/-- The C1 engine: a position tool plus one detection tool; past its first
cycle (`_quality_checked` set), isolating C1 from the first-cycle
`master_image` defect. -/
def engC1 : Engine :=
  { tools := [areaToolC1], position_tool := some posToolC1,
    quality_checked := true, master_image_attr := false, busy_output := false }

/-- First C1 cycle against the fixed capture. -/
def c1run1 : Except String InspectionOutcome × Engine :=
  InspectionEngine.run_inspection_cycle engC1 (some imgRGB)

/-- Second C1 cycle, same engine object, identical capture buffer. -/
def c1run2 : Except String InspectionOutcome × Engine :=
  InspectionEngine.run_inspection_cycle c1run1.2 (some imgRGB)

/-! ## Theorems -/

/-- C10: `extract_roi` clamps: for an image with at least one row and one
column and any configured ROI rectangle, the clamped offsets land inside the
image, and every pixel of the returned sub-image is read from an in-bounds
coordinate of the original image; with no ROI configured the full image is
returned. -/
theorem c10_extract_roi_in_bounds {α : Type} (img : Image α) (r : ROI)
    (h1 : 1 ≤ img.h) (hw : 1 ≤ img.w) :
    (0 ≤ roiClampX r img.w ∧ roiClampX r img.w ≤ (img.w : Int) - 1) ∧
    (0 ≤ roiClampY r img.h ∧ roiClampY r img.h ≤ (img.h : Int) - 1) ∧
    (∀ i j, i < (extract_roi (some r) img).h → j < (extract_roi (some r) img).w →
      (roiClampY r img.h).toNat + i < img.h ∧ (roiClampX r img.w).toNat + j < img.w) ∧
    extract_roi (none : Option ROI) img = img := by
  have hx0 : 0 ≤ roiClampX r img.w := le_max_left _ _
  have hy0 : 0 ≤ roiClampY r img.h := le_max_left _ _
  have hx1 : roiClampX r img.w ≤ (img.w : Int) - 1 := by
    apply max_le
    · omega
    · exact min_le_right _ _
  have hy1 : roiClampY r img.h ≤ (img.h : Int) - 1 := by
    apply max_le
    · omega
    · exact min_le_right _ _
  refine ⟨⟨hx0, hx1⟩, ⟨hy0, hy1⟩, ?_, rfl⟩
  intro i j hi hj
  simp only [extract_roi] at hi hj
  have hwle : roiClampW r img.w ≤ (img.w : Int) - roiClampX r img.w :=
    min_le_right _ _
  have hhle : roiClampH r img.h ≤ (img.h : Int) - roiClampY r img.h :=
    min_le_right _ _
  constructor
  · have : (i : Int) < max 0 (roiClampH r img.h) := by
      have := hi
      omega
    have hmax : max 0 (roiClampH r img.h) ≤ (img.h : Int) - roiClampY r img.h := by
      apply max_le
      · omega
      · exact hhle
    omega
  · have : (j : Int) < max 0 (roiClampW r img.w) := by
      have := hj
      omega
    have hmax : max 0 (roiClampW r img.w) ≤ (img.w : Int) - roiClampX r img.w := by
      apply max_le
      · omega
      · exact hwle
    omega

/-- Witness for C10 at a concrete image and an out-of-bounds ROI. -/
theorem c10_witness :
    (1 ≤ imgW.h ∧ 1 ≤ imgW.w) ∧
    ((roiClampY roiW imgW.h).toNat + 0 < imgW.h ∧
      (roiClampX roiW imgW.w).toNat + 0 < imgW.w) := by
  refine ⟨⟨by decide, by decide⟩, ?_⟩
  exact (c10_extract_roi_in_bounds imgW roiW (by decide) (by decide)).2.2.1
    0 0 (by decide) (by decide)

/-- An if-then-else producing an (OK, rate) / (NG, rate) pair yields OK
exactly when its condition holds. -/
lemma judge_pair_ok_iff (c : Prop) [Decidable c] (r : ℚ) :
    (if c then ((Status.OK : Status), r) else (Status.NG, r)).1 = Status.OK ↔ c := by
  split <;> simp_all

/-- C6: every tool's judgment is OK iff `threshold ≤ rate ≤ upperLimit` when
the upper limit is set (both bounds inclusive) and iff `rate ≥ threshold`
when it is unset; the position tool always uses the floor rule. -/
theorem c6_judge_rule :
    (∀ t r : ℚ, (BaseToolProcessor.judge t none r).1 = Status.OK ↔ t ≤ r) ∧
    (∀ t ul r : ℚ,
      (BaseToolProcessor.judge t (some ul) r).1 = Status.OK ↔ t ≤ r ∧ r ≤ ul) ∧
    (∀ t r : ℚ, (AreaToolProcessor.judge t none r).1 = Status.OK ↔ t ≤ r) ∧
    (∀ t ul r : ℚ,
      (AreaToolProcessor.judge t (some ul) r).1 = Status.OK ↔ t ≤ r ∧ r ≤ ul) ∧
    (∀ t r : ℚ, (ColorAreaToolProcessor.judge t none r).1 = Status.OK ↔ t ≤ r) ∧
    (∀ t ul r : ℚ,
      (ColorAreaToolProcessor.judge t (some ul) r).1 = Status.OK ↔ t ≤ r ∧ r ≤ ul) ∧
    (∀ t r : ℚ, (EdgePixelsToolProcessor.judge t none r).1 = Status.OK ↔ t ≤ r) ∧
    (∀ t ul r : ℚ,
      (EdgePixelsToolProcessor.judge t (some ul) r).1 = Status.OK ↔ t ≤ r ∧ r ≤ ul) ∧
    (∀ t r : ℚ, (PositionAdjustmentToolProcessor.judge t r).1 = Status.OK ↔ t ≤ r) := by
  refine ⟨?_, ?_, ?_, ?_, ?_, ?_, ?_, ?_, ?_⟩ <;> intros <;>
    exact judge_pair_ok_iff _ _

/-- Witness for C6: a concrete in-range judgment is OK. -/
theorem c6_witness :
    (BaseToolProcessor.judge 65 (some 120) 100).1 = Status.OK ∧
    (PositionAdjustmentToolProcessor.judge 70 70).1 = Status.OK :=
  ⟨(c6_judge_rule.2.1 65 120 100).mpr (by norm_num),
   (c6_judge_rule.2.2.2.2.2.2.2.2 70 70).mpr (by norm_num)⟩

/-- C7: for the Area, ColorArea and EdgeDetection tools, the matching rate
equals 100 times the test ROI's matching-pixel count (white pixels above the
stored threshold value / pixels inside the stored HSV window / edge pixels
from the stored Canny thresholds) divided by the master's reference count,
capped at 200; a zero master reference count yields rate 0. -/
theorem c7_ratio_rates :
    (∀ (grayFn : Color → Nat) (s : AreaToolProcessorState) (test : Image Color),
      AreaToolProcessor.calculate_matching_rate grayFn s test =
        if s.master_area_pixels = 0 then 0
        else min 200 (100 * (countPix (fun v => v == 255)
          (cv2ThresholdBinary s.threshold_value
            ((extract_roi s.roi test).map grayFn)) : ℚ) /
          (s.master_area_pixels : ℚ))) ∧
    (∀ (grayFn : Color → Nat) (blur : Image Nat → Image Nat)
        (canny : Int → Int → Image Nat → Image Nat)
        (s : EdgePixelsToolProcessorState) (test : Image Color),
      EdgePixelsToolProcessor.calculate_matching_rate grayFn blur canny s test =
        if s.master_edge_pixels = 0 then 0
        else min 200 (100 * (countPix (fun v => v == 255)
          (canny s.low_threshold s.high_threshold
            (blur ((extract_roi s.roi test).map grayFn))) : ℚ) /
          (s.master_edge_pixels : ℚ))) ∧
    (∀ (hsvFn : Color → Color) (s : ColorAreaToolProcessorState) (test : Image Color),
      ColorAreaToolProcessor.calculate_matching_rate hsvFn s test =
        if s.master_color_pixels = 0 then 0
        else min 200 (100 * (countPix (fun v => v == 255)
          (cv2InRange s.color_lower s.color_upper
            ((extract_roi s.roi test).map hsvFn)) : ℚ) /
          (s.master_color_pixels : ℚ))) := by
  refine ⟨?_, ?_, ?_⟩
  · intro grayFn s test
    simp only [AreaToolProcessor.calculate_matching_rate]
    split
    · rfl
    · rw [div_mul_eq_mul_div, mul_comm]
  · intro grayFn blur canny s test
    simp only [EdgePixelsToolProcessor.calculate_matching_rate]
    split
    · rfl
    · rw [div_mul_eq_mul_div, mul_comm]
  · intro hsvFn s test
    simp only [ColorAreaToolProcessor.calculate_matching_rate]
    split
    · rfl
    · rw [div_mul_eq_mul_div, mul_comm]

/-- C9 counterexample: on a master whose sampled pixels have hues 0, 10, 10,
the source's target hue is the truncated mean 6, not the median 10 claimed
by the spec — the code averages the sampled colors (`np.mean`,
color_area_tool.py line 84) instead of taking their median. -/
theorem c9_counterexample :
    ColorAreaToolProcessor.select_target_hsv id roiC9 imgC9 samplesC9 = (6, 0, 0) ∧
    specMedianOfSamples
      (sampledColors roiC9 ((extract_roi (some roiC9) imgC9).map id) samplesC9) =
      (10, 0, 0) ∧
    ColorAreaToolProcessor.select_target_hsv id roiC9 imgC9 samplesC9 ≠
      specMedianOfSamples
        (sampledColors roiC9 ((extract_roi (some roiC9) imgC9).map id) samplesC9) := by
  refine ⟨by decide, by decide, by decide⟩

/-- C9 amended: when explicit sample coordinates are given and at least one
falls inside the ROI after mapping to ROI-local space, the target color is
the per-channel mean (not median) HSV of the sampled pixels, truncated to
uint8; when no samples are given, the target color is the per-channel median
HSV of the whole ROI. -/
theorem c9_target_color_selection (hsvFn : Color → Color) (roi : ROI)
    (master : Image Color) (samples : List (Int × Int)) :
    (samples ≠ [] →
      sampledColors roi ((extract_roi (some roi) master).map hsvFn) samples ≠ [] →
      ColorAreaToolProcessor.select_target_hsv hsvFn roi master samples =
        npMeanColorU8
          (sampledColors roi ((extract_roi (some roi) master).map hsvFn) samples)) ∧
    (samples = [] →
      ColorAreaToolProcessor.select_target_hsv hsvFn roi master samples =
        ColorAreaToolProcessor.auto_detect_color_range
          ((extract_roi (some roi) master).map hsvFn)) := by
  constructor
  · intro hs hv
    simp only [ColorAreaToolProcessor.select_target_hsv, if_pos hs, if_pos hv]
  · intro hs
    subst hs
    simp [ColorAreaToolProcessor.select_target_hsv]

/-- Witness for C9 at the concrete master, ROI and samples above. -/
theorem c9_witness :
    samplesC9 ≠ [] ∧
    ColorAreaToolProcessor.select_target_hsv id roiC9 imgC9 samplesC9 =
      npMeanColorU8
        (sampledColors roiC9 ((extract_roi (some roiC9) imgC9).map id) samplesC9) ∧
    ColorAreaToolProcessor.select_target_hsv id roiC9 imgC9 [] =
      ColorAreaToolProcessor.auto_detect_color_range
        ((extract_roi (some roiC9) imgC9).map id) :=
  ⟨by decide,
   (c9_target_color_selection id roiC9 imgC9 samplesC9).1 (by decide) (by decide),
   (c9_target_color_selection id roiC9 imgC9 []).2 rfl⟩

/-- Aggregation returns OK exactly when every entry's status is OK. -/
lemma aggregate_ok_iff (rs : List ToolResult) :
    InspectionEngine.aggregate_results rs = Status.OK ↔
      ∀ r ∈ rs, r.status = Status.OK := by
  induction rs with
  | nil => simp [InspectionEngine.aggregate_results]
  | cons r rest ih =>
    by_cases h : r.status = Status.NG
    · simp [InspectionEngine.aggregate_results, h, List.forall_mem_cons]
    · have hok : r.status = Status.OK := by
        cases hs : r.status with
        | OK => rfl
        | NG => exact absurd hs h
      simp [InspectionEngine.aggregate_results, h, hok, ih, List.forall_mem_cons]

/-- An NG member forces the aggregate to NG. -/
lemma aggregate_ng_of_mem (rs : List ToolResult) (r : ToolResult) (hr : r ∈ rs)
    (h : r.status = Status.NG) :
    InspectionEngine.aggregate_results rs = Status.NG := by
  cases hagg : InspectionEngine.aggregate_results rs with
  | NG => rfl
  | OK =>
    have := (aggregate_ok_iff rs).mp hagg r hr
    rw [h] at this
    exact absurd this (by decide)

/-- C2 counterexample: the empty result list aggregates to OK, while the
claim requires a non-empty list for an OK verdict. -/
theorem c2_counterexample :
    InspectionEngine.aggregate_results [] = Status.OK ∧
    ¬ (([] : List ToolResult) ≠ []) :=
  ⟨rfl, fun h => h rfl⟩

/-- C2 amended: the overall status is OK iff every entry of the result list
(including the position tool's entry, when present) has status OK — with
the empty list vacuously OK; a single NG entry forces overall NG. -/
theorem c2_overall_ok_iff_no_ng (rs : List ToolResult) :
    InspectionEngine.aggregate_results rs = Status.OK ↔
      ∀ r ∈ rs, r.status = Status.OK :=
  aggregate_ok_iff rs

/-- Witness for C2 at a concrete singleton OK list. -/
theorem c2_witness : InspectionEngine.aggregate_results [okRes] = Status.OK :=
  (c2_overall_ok_iff_no_ng [okRes]).mpr (by
    intro r hr
    rw [List.mem_singleton] at hr
    subst hr
    rfl)

/-- The per-config load step never installs a position tool, because the
engine's configure call on the position processor raises `TypeError`. -/
lemma loadStep_position_none (extract : ToolConfigEntry → Except String EngineTool)
    (st : LoadState) (cfg : ToolConfigEntry) (h : st.position_tool = none) :
    (loadStep extract st cfg).position_tool = none := by
  unfold loadStep
  split
  · cases hc : engineConfigureCall cfg.tool_type with
    | error e => exact h
    | ok u =>
      cases hx : extract cfg with
      | error e => exact h
      | ok tool =>
        by_cases hp : cfg.tool_type = "position_adjust"
        · simp [engineConfigureCall, hp] at hc
        · simp [hp, h]
  · exact h

/-- Folding the load loop preserves an absent position tool. -/
lemma loadFold_position_none (extract : ToolConfigEntry → Except String EngineTool)
    (configs : List ToolConfigEntry) :
    ∀ st : LoadState, st.position_tool = none →
      (configs.foldl (loadStep extract) st).position_tool = none := by
  induction configs with
  | nil => intro st h; exact h
  | cons c cs ih =>
    intro st h
    exact ih _ (loadStep_position_none extract st c h)

/-- The per-config load step appends exactly the successfully extracted
non-position tool of a known type, and nothing otherwise. -/
lemma loadStep_tools (extract : ToolConfigEntry → Except String EngineTool)
    (st : LoadState) (cfg : ToolConfigEntry) :
    (loadStep extract st cfg).tools = st.tools ++
      (if TOOL_CLASSES.contains cfg.tool_type ∧ cfg.tool_type ≠ "position_adjust" then
        (extract cfg).toOption else none).toList := by
  unfold loadStep
  by_cases hmem : cfg.tool_type ∈ TOOL_CLASSES
  · by_cases hp : cfg.tool_type = "position_adjust"
    · simp [engineConfigureCall, hp, hmem]
    · cases hx : extract cfg with
      | error e => simp [engineConfigureCall, hmem, hp, hx, Except.toOption]
      | ok tool => simp [engineConfigureCall, hmem, hp, hx, Except.toOption]
  · simp [hmem]

/-- Characterization of the tools collected by the load fold. -/
lemma loadFold_tools (extract : ToolConfigEntry → Except String EngineTool)
    (configs : List ToolConfigEntry) :
    ∀ st : LoadState, (configs.foldl (loadStep extract) st).tools =
      st.tools ++ configs.filterMap (fun cfg =>
        if TOOL_CLASSES.contains cfg.tool_type ∧ cfg.tool_type ≠ "position_adjust" then
          (extract cfg).toOption
        else none) := by
  induction configs with
  | nil => intro st; simp
  | cons c cs ih =>
    intro st
    rw [List.foldl_cons, ih (loadStep extract st c), loadStep_tools,
      List.filterMap_cons]
    cases hfc : (if TOOL_CLASSES.contains c.tool_type ∧ c.tool_type ≠ "position_adjust"
        then (extract c).toOption else none) with
    | none => simp
    | some t => simp

/-- C3 counterexample: a two-tool program whose first tool's feature
extraction raises loads anyway — the engine keeps only the surviving tool
and (its first cycle aside) runs cycles normally, so loading neither aborts
nor prevents a partially-initialized engine from running. -/
theorem c3_counterexample :
    InspectionEngine.load_program extractC3 [cfgOutline, cfgArea] =
      ⟨[toolAreaC3], none⟩ ∧
    (InspectionEngine.run_inspection_cycle
      (InspectionEngine.run_inspection_cycle
        (InspectionEngine.initEngine
          (InspectionEngine.load_program extractC3 [cfgOutline, cfgArea]))
        (some imgRGB)).2
      (some imgRGB)).1 =
      Except.ok ⟨Status.OK, [areaResOK]⟩ := by
  constructor
  · rfl
  · rfl

/-- C3 amended: a tool whose configure or feature extraction raises at load
time is logged and skipped; loading continues and the engine ends up with
exactly the successfully initialized non-position tools of known type, in
configured order — it may therefore run with only part of the configured
tools. -/
theorem c3_load_skips_failing_tools
    (extract : ToolConfigEntry → Except String EngineTool)
    (tools_config : List ToolConfigEntry) :
    (InspectionEngine.load_program extract tools_config).tools =
      tools_config.filterMap (fun cfg =>
        if TOOL_CLASSES.contains cfg.tool_type ∧ cfg.tool_type ≠ "position_adjust" then
          (extract cfg).toOption
        else none) := by
  rw [InspectionEngine.load_program, loadFold_tools]
  rfl

/-- C4: on the first cycle of a constructed engine the quality-check block
marks the check done and then reads the never-assigned `self.master_image`,
so the cycle raises `AttributeError` instead of proceeding; the `finally`
block still lowers BUSY, and the check is never attempted again. -/
theorem c4_first_cycle_attribute_error (e : Engine) (img : Image Color)
    (hq : e.quality_checked = false) (hm : e.master_image_attr = false) :
    (InspectionEngine.run_inspection_cycle e (some img)).1 = Except.error attrErrMsg ∧
    (InspectionEngine.run_inspection_cycle e (some img)).2.busy_output = false ∧
    (InspectionEngine.run_inspection_cycle e (some img)).2.quality_checked = true := by
  unfold InspectionEngine.run_inspection_cycle
  simp [hq, hm]

/-- Witness for C4 at a concrete freshly constructed engine. -/
theorem c4_witness :
    engC4.quality_checked = false ∧
    (InspectionEngine.run_inspection_cycle engC4 (some imgRGB)).1 =
      Except.error attrErrMsg :=
  ⟨rfl, (c4_first_cycle_attribute_error engC4 imgRGB rfl rfl).1⟩

/-- C5: no program load can ever install a position tool: `load_program`
calls `tool.configure(roi=..., threshold=..., upper_limit=...)`, the
position processor's `configure` does not accept an `upper_limit` keyword,
the resulting `TypeError` is swallowed by the loop's `except`, and the tool
is skipped — so `self.position_tool` stays `None` for every configuration
and every extraction behavior, and no cycle ever runs position
correction. -/
theorem c5_position_tool_never_installed
    (extract : ToolConfigEntry → Except String EngineTool)
    (tools_config : List ToolConfigEntry) :
    (InspectionEngine.load_program extract tools_config).position_tool = none :=
  loadFold_position_none extract tools_config ⟨[], none⟩ rfl

/-- Witness for C5 at a concrete program containing a position tool entry. -/
theorem c5_witness :
    (InspectionEngine.load_program extractC3
      [{ tool_type := "position_adjust", roi := ⟨0, 0, 8, 8⟩, threshold := 70,
         upper_limit := none }]).position_tool = none :=
  c5_position_tool_never_installed extractC3 _

/-- C1: the position offset is not rolled back after the cycle: running the
C1 engine once shifts the stored ROI of its detection tool from (10, 20) to
(15, 17), running it again against the identical capture shifts it to
(20, 14), and the two cycles' tool-result lists differ — the offset
accumulates instead of lasting one cycle, so cycles are not idempotent. -/
theorem c1_offset_mutates_stored_roi :
    (c1run1.2.tools.map fun t => t.roi) = [⟨15, 17, 30, 40⟩] ∧
    (c1run2.2.tools.map fun t => t.roi) = [⟨20, 14, 30, 40⟩] ∧
    cycleResults c1run1.1 ≠ cycleResults c1run2.1 := by
  refine ⟨by decide, by decide, by decide⟩

/-- C8: per-tool failure isolation in `process_tools`: the result list has
one entry per configured tool in order; entry i is tool i's own result, or
the degraded NG result carrying the error message when tool i's `process`
raised; and any raising tool's degraded result is present and forces the
aggregate to NG — a failed tool is never excluded. -/
theorem c8_tool_failure_isolated (tools : List EngineTool) (image : Image Color) :
    (InspectionEngine.process_tools tools image).length = tools.length ∧
    (∀ i : Nat, (InspectionEngine.process_tools tools image)[i]? =
      tools[i]?.map fun t =>
        match t.processFn t.roi image with
        | Except.ok r => r
        | Except.error err => failedResult t err) ∧
    (∀ t ∈ tools, ∀ err, t.processFn t.roi image = Except.error err →
      failedResult t err ∈ InspectionEngine.process_tools tools image ∧
      InspectionEngine.aggregate_results (InspectionEngine.process_tools tools image) =
        Status.NG) := by
  refine ⟨?_, ?_, ?_⟩
  · simp [InspectionEngine.process_tools]
  · intro i
    simp [InspectionEngine.process_tools, List.getElem?_map]
  · intro t ht err herr
    have hmem : failedResult t err ∈ InspectionEngine.process_tools tools image := by
      unfold InspectionEngine.process_tools
      have h2 := List.mem_map_of_mem (fun t' : EngineTool =>
        match t'.processFn t'.roi image with
        | Except.ok r => r
        | Except.error e => failedResult t' e) ht
      simp only [herr] at h2
      exact h2
    exact ⟨hmem, aggregate_ng_of_mem _ _ hmem rfl⟩

/-- Witness for C8 at a concrete always-raising tool. -/
theorem c8_witness :
    failedResult toolFail "boom" ∈ InspectionEngine.process_tools [toolFail] imgRGB ∧
    InspectionEngine.aggregate_results
      (InspectionEngine.process_tools [toolFail] imgRGB) = Status.NG :=
  (c8_tool_failure_isolated [toolFail] imgRGB).2.2 toolFail (by simp) "boom" rfl
